import Mathlib

/-!
Verification of the hieronymusv2 per-connection protocol engine.

This file shallowly embeds the Rust sources of the repository:
bytes are `Nat` values below 256, machine integers are `Nat` bit
patterns reduced with explicit `% 2^w`, the streaming `nom` parsers
become functions into a three-valued result type (`ok` / `incomplete` /
`failed`, mirroring nom's `Ok` / `Err::Incomplete` / `Err::Error`-or-
`Err::Failure`), and the connection actor's read loop becomes explicit
state passing over a `Connection` record.
-/

set_option maxRecDepth 100000

namespace Hieronymus

/-! ### Varint codec, from src/varint.rs -/

/-- `V::MAX_SIZE` from the `varint_impl!` table at the bottom of
src/varint.rs: the maximum number of bytes a varint of the given bit
width may occupy (16 → 3, 32 → 5, 64 → 10, 128 → 19; both the signed and
the unsigned type of a width share the entry). -/
def maxSize (w : Nat) : Nat :=
  if w = 16 then 3 else if w = 32 then 5 else if w = 64 then 10
  else if w = 128 then 19 else 0

/-- The w-bit two's-complement pattern of an integer (Rust reinterprets
signed values bit-for-bit, e.g. `-1i32` is the pattern `0xffffffff`). -/
def toPattern (w : Nat) (x : Int) : Nat :=
  (x % ((2 ^ w : Nat) : Int)).toNat

/-- `V::END_MASK = !0x7f` viewed as a w-bit pattern: all bits above the
low seven. -/
def endMask (w : Nat) : Nat := 2 ^ w - 0x80

/-- Arithmetic (sign-propagating) right shift of a w-bit pattern, the
behaviour of Rust's `>>` on the signed types `i16`/`i32`/`i64`/`i128`. -/
def asr (w k : Nat) (u : Nat) : Nat :=
  if u < 2 ^ (w - 1) then u >>> k else (u >>> k) ||| (2 ^ w - 2 ^ (w - k))

/-- The loop body of `serialize_and_append` (src/varint.rs lines 75-85),
parameterised by the shift used for `v >> SHIFT_CONSTANT`: logical for
unsigned types, arithmetic for signed ones.  The fuel argument is the
`for _ in 0..V::MAX_SIZE` bound; exhausting it models the
`panic!`-with-"overflow when converting varint to bytes" line, rendered
as `none`. -/
def serializeLoop (w : Nat) (shift : Nat → Nat) : Nat → Nat → Option (List Nat)
  | 0, _ => none
  | n + 1, v =>
    if v &&& endMask w = 0 then some [v &&& 0xff]
    else (serializeLoop w shift n (shift v)).map
      (fun rest => ((v &&& 0xff) ||| 0x80) :: rest)

/-- `serialize_and_append` for an unsigned width-w integer `v < 2^w`
(src/varint.rs lines 75-85): the bytes appended to the buffer, or `none`
for the panic path. -/
def serialize_and_append_u (w : Nat) (v : Nat) : Option (List Nat) :=
  serializeLoop w (fun v => v >>> 7) (maxSize w) v

/-- `serialize_and_append` for a signed width-w integer given by its
two's-complement pattern `u < 2^w`: identical to the unsigned loop
except that `v >> 7` is Rust's arithmetic shift on the signed type. -/
def serialize_and_append_i (w : Nat) (u : Nat) : Option (List Nat) :=
  serializeLoop w (asr w 7) (maxSize w) u

/-- Result type of the streaming parsers: nom's `Ok((rest, value))`,
`Err::Incomplete`, and `Err::Error`/`Err::Failure` collapsed into one
failure constructor (src/net.rs `connection_loop` treats `Error` and
`Failure` alike). -/
inductive PResult (α : Type) where
  | ok (rest : List Nat) (val : α)
  | incomplete
  | failed
deriving DecidableEq, Repr

/-- The value fold of the `varint` parser (src/varint.rs lines 64-68):
`bytes.iter().rev().fold(ZERO, |acc, b| acc << 7 | (b & 0x7f))`, with
the left shift wrapping at the type width as Rust's `<<` does. -/
def foldVarint (w : Nat) (bytes : List Nat) : Nat :=
  bytes.reverse.foldl (fun acc b => (((acc <<< 7) % 2 ^ w)) ||| (b &&& 0x7f)) 0

/-- The `varint` parser of src/varint.rs lines 54-70:
`recognize(pair(take_while_m_n(0, MAX_SIZE, top-bit-set), be_u8))`
followed by the fold.  `take_while_m_n` (streaming) consumes up to
`MAX_SIZE` bytes whose bit 7 is set — returning `Incomplete` if the
input ends while the predicate still holds and fewer than `MAX_SIZE`
bytes were taken — and `be_u8` then consumes one further byte
unconditionally, whatever its top bit. -/
def varint (w : Nat) (input : List Nat) : PResult Nat :=
  let contLen := (input.takeWhile (fun b => b &&& 0x80 == 0x80)).length
  let k := min contLen (maxSize w)
  if input.length ≤ k then .incomplete
  else .ok (input.drop (k + 1)) (foldVarint w (input.take (k + 1)))

/-! ### Framing primitives, from src/nom.rs -/

/-- nom's `length_data(varint::<u32>)`: a varint length prefix followed
by exactly that many bytes; streaming, so a short body is
`Incomplete`. -/
def length_data (input : List Nat) : PResult (List Nat) :=
  match varint 32 input with
  | .ok rest len =>
      if rest.length < len then .incomplete
      else .ok (rest.drop len) (rest.take len)
  | .incomplete => .incomplete
  | .failed => .failed

/-- A UTF-8 continuation byte (`10xxxxxx`). -/
def contByte (b : Nat) : Bool := 0x80 ≤ b && b ≤ 0xbf

/-- Allowed second byte of a three-byte UTF-8 sequence headed by `b`. -/
def utf8Second3 (b b1 : Nat) : Bool :=
  if b = 0xe0 then 0xa0 ≤ b1 && b1 ≤ 0xbf
  else if b = 0xed then 0x80 ≤ b1 && b1 ≤ 0x9f
  else contByte b1

/-- Allowed second byte of a four-byte UTF-8 sequence headed by `b`. -/
def utf8Second4 (b b1 : Nat) : Bool :=
  if b = 0xf0 then 0x90 ≤ b1 && b1 ≤ 0xbf
  else if b = 0xf4 then 0x80 ≤ b1 && b1 ≤ 0x8f
  else contByte b1

/-- Validity of a byte sequence as UTF-8, the check performed by
`std::str::from_utf8` inside `map_res` in src/nom.rs. -/
def utf8Valid : List Nat → Bool
  | [] => true
  | b :: rest =>
    if b ≤ 0x7f then utf8Valid rest
    else if b < 0xc2 then false
    else if b ≤ 0xdf then
      match rest with
      | b1 :: rest1 => contByte b1 && utf8Valid rest1
      | [] => false
    else if b ≤ 0xef then
      match rest with
      | b1 :: b2 :: rest2 => utf8Second3 b b1 && contByte b2 && utf8Valid rest2
      | _ => false
    else if b ≤ 0xf4 then
      match rest with
      | b1 :: b2 :: b3 :: rest3 =>
          utf8Second4 b b1 && contByte b2 && contByte b3 && utf8Valid rest3
      | _ => false
    else false

/-- `var_str_with_max_length` (src/nom.rs lines 154-164):
`map_res(length_data(map(varint::<V>, |len| len.min(max_length))),
std::str::from_utf8)`.  Note the declared length is clamped with
`min`, not rejected.  The parsed string is kept as its byte list. -/
def var_str_with_max_length (maxLength : Nat) (input : List Nat) :
    PResult (List Nat) :=
  match varint 32 input with
  | .ok rest len =>
      let len' := min len maxLength
      if rest.length < len' then .incomplete
      else if utf8Valid (rest.take len') then .ok (rest.drop len') (rest.take len')
      else .failed
  | .incomplete => .incomplete
  | .failed => .failed

/-- `var_str` (src/nom.rs lines 142-144): maximum length 32767. -/
def var_str (input : List Nat) : PResult (List Nat) :=
  var_str_with_max_length 32767 input

/-- `var_bytes` (src/nom.rs lines 129-131). -/
def var_bytes (input : List Nat) : PResult (List Nat) :=
  length_data input

/-- nom's streaming `be_u16`. -/
def be_u16 (input : List Nat) : PResult Nat :=
  match input with
  | b0 :: b1 :: rest => .ok rest (b0 * 0x100 + b1)
  | _ => .incomplete

/-- nom's streaming `be_u32` (the default field parser nom-derive picks
for a bare `u32` field such as `LoginPluginResponse.message_id`). -/
def be_u32 (input : List Nat) : PResult Nat :=
  match input with
  | b0 :: b1 :: b2 :: b3 :: rest =>
      .ok rest (((b0 * 0x100 + b1) * 0x100 + b2) * 0x100 + b3)
  | _ => .incomplete

/-- nom's streaming `be_u64` (the field parser for `Ping(u64)` and
`KeepAlive(u64)`). -/
def be_u64 (input : List Nat) : PResult Nat :=
  match input with
  | b0 :: b1 :: b2 :: b3 :: b4 :: b5 :: b6 :: b7 :: rest =>
      .ok rest (((((((b0 * 0x100 + b1) * 0x100 + b2) * 0x100 + b3) * 0x100 + b4)
        * 0x100 + b5) * 0x100 + b6) * 0x100 + b7)
  | _ => .incomplete

/-- The `boolean` parser (src/nom.rs lines 46-55): one byte, `0` is
false, `1` is true, anything else is a parse error. -/
def boolean (input : List Nat) : PResult Bool :=
  match input with
  | [] => .incomplete
  | b :: rest =>
      if b = 0 then .ok rest false
      else if b = 1 then .ok rest true
      else .failed

/-- The `maybe(var_bytes)` combinator (src/nom.rs lines 59-72): a
boolean flag byte, then the payload iff the flag was 1. -/
def maybe_var_bytes (input : List Nat) : PResult (Option (List Nat)) :=
  match boolean input with
  | .ok rest true =>
      match var_bytes rest with
      | .ok rest' v => .ok rest' (some v)
      | .incomplete => .incomplete
      | .failed => .failed
  | .ok rest false => .ok rest none
  | .incomplete => .incomplete
  | .failed => .failed

/-! ### Packed position, from src/data.rs lines 12-37 -/

/-- `Position::x`: `(self.0 & 0x3ffffff) as i32`, then sign-fix by
subtracting `1 << 26` when the result is at least `1 << 25`. -/
def Position.x (v : Nat) : Int :=
  let x : Int := ((v &&& 0x3ffffff : Nat) : Int)
  if (1 <<< 25 : Int) ≤ x then x - (1 <<< 26) else x

/-- `Position::y`: `(self.0 << 26 & 0xfff) as i16` — the source really
shifts LEFT by 26 (precedence: `(self.0 << 26) & 0xfff`), the `u64`
shift wrapping at 64 bits — then the same sign-fix against `1 << 11`. -/
def Position.y (v : Nat) : Int :=
  let x : Int := ((((v <<< 26) % 2 ^ 64) &&& 0xfff : Nat) : Int)
  if (1 <<< 11 : Int) ≤ x then x - (1 <<< 12) else x

/-- `Position::z`: `(self.0 << 38 & 0x3ffffff) as i32`, again a LEFT
shift, then the sign-fix against `1 << 25`. -/
def Position.z (v : Nat) : Int :=
  let x : Int := ((((v <<< 38) % 2 ^ 64) &&& 0x3ffffff : Nat) : Int)
  if (1 <<< 25 : Int) ≤ x then x - (1 <<< 26) else x

/-- Modelled from the spec: the packed-position word of §3,
`x:26 | z:26 | y:12` from the most significant bit, each field the
two's-complement pattern of its signed value.  Used to compare the
source accessors against the documented layout. -/
def Position.packSpec (x z y : Int) : Nat :=
  (toPattern 26 x) <<< 38 ||| (toPattern 26 z) <<< 12 ||| toPattern 12 y

/-! ### Connection state and packets, from src/net.rs and src/net/ -/

/-- `ConnectionState` (src/net.rs lines 131-137). -/
inductive ConnectionState where
  | handshake
  | status
  | login
  | play
deriving DecidableEq, Repr

/-- `AuthSession` (src/auth.rs lines 35-39); the username a byte list,
the verify token the eight random bytes. -/
structure AuthSession where
  username : List Nat
  verifyToken : List Nat
deriving DecidableEq, Repr

/-- The per-connection state of `Connection` (src/net.rs lines 35-44)
that the packet engine reads or writes: the phase, the config's
online-mode flag, the optional `auth_session`, and the single optional
`cipher` (the struct has one `cipher: Option<AesCipher>` field, not an
encrypt/decrypt pair).  The socket and the server/keys handles stay
outside the embedding; their effects surface as `Event`s and as the
oracle `Env` below. -/
structure Connection where
  state : ConnectionState
  isOnline : Bool
  authSession : Option AuthSession
  cipher : Option (List Nat)
deriving DecidableEq, Repr

/-- The external effects a handler consults, modelled as oracles: RSA
PKCS#1 v1.5 decryption with the connection's private key (`none` is a
decryption failure), the eight random bytes `AuthSession::new` draws,
and the session service's `{id, name}` reply (`none` is an HTTP or JSON
failure). -/
structure Env where
  rsaDecrypt : List Nat → Option (List Nat)
  freshToken : List Nat
  authReply : Option (Nat × List Nat)

/-- A packet parsed by one of the per-phase `read_packet` dispatchers. -/
inductive ParsedPacket where
  | handshake (protocolVersion : Nat) (serverAddress : List Nat)
      (serverPort : Nat) (nextState : ConnectionState)
  | statusRequest
  | ping (payload : Nat)
  | loginStart (username : List Nat)
  | encryptionResponse (sharedSecretEnc verifyTokenEnc : List Nat)
  | loginPluginResponse (messageId : Nat) (data : Option (List Nat))
deriving DecidableEq, Repr

/-- Observable inbound-processing events: which packets were handled
and what the handlers sent back (abstracted from the outbound byte
encoding). -/
inductive Event where
  | handshakeDone (next : ConnectionState)
  | statusSent
  | pongSent (payload : Nat)
  | encryptionRequested (verifyToken : List Nat)
  | loginSucceeded (username : List Nat)
  | kickSent
deriving DecidableEq, Repr

/-- `connection_state` (src/nom.rs lines 169-175): a varint that must
be 1 (Status) or 2 (Login); `map_opt` turns anything else into a parse
error. -/
def connection_state (input : List Nat) : PResult ConnectionState :=
  match varint 32 input with
  | .ok rest 1 => .ok rest .status
  | .ok rest 2 => .ok rest .login
  | .ok _ _ => .failed
  | .incomplete => .incomplete
  | .failed => .failed

/-- `handshake::read_packet`: packet id 0 is
`Handshake { protocol_version: varint, server_address: var_str,
server_port: be_u16, next_state: connection_state }`; any other id is a
`Failure`. -/
def handshake_read_packet (input : List Nat) : PResult ParsedPacket :=
  match varint 32 input with
  | .ok rest 0 =>
      match varint 32 rest with
      | .ok r1 pv =>
          match var_str r1 with
          | .ok r2 addr =>
              match be_u16 r2 with
              | .ok r3 port =>
                  match connection_state r3 with
                  | .ok r4 next => .ok r4 (.handshake pv addr port next)
                  | .incomplete => .incomplete
                  | .failed => .failed
              | .incomplete => .incomplete
              | .failed => .failed
          | .incomplete => .incomplete
          | .failed => .failed
      | .incomplete => .incomplete
      | .failed => .failed
  | .ok _ _ => .failed
  | .incomplete => .incomplete
  | .failed => .failed

/-- `status::read_packet` (src/net/status.rs lines 11-17): id 0 is the
fieldless `Status`, id 1 is `Ping(u64)`, anything else a `Failure`. -/
def status_read_packet (input : List Nat) : PResult ParsedPacket :=
  match varint 32 input with
  | .ok rest 0 => .ok rest .statusRequest
  | .ok rest 1 =>
      match be_u64 rest with
      | .ok r1 payload => .ok r1 (.ping payload)
      | .incomplete => .incomplete
      | .failed => .failed
  | .ok _ _ => .failed
  | .incomplete => .incomplete
  | .failed => .failed

/-- `login::read_packet` (src/net/login.rs lines 22-29): id 0 is
`LoginStart { username: var_str_with_max_length(16) }`, id 1 is
`EncryptionResponse { shared_secret: var_bytes, verify_token:
var_bytes }`, id 2 is `LoginPluginResponse { message_id: be_u32, data:
maybe(var_bytes) }`, anything else a `Failure`. -/
def login_read_packet (input : List Nat) : PResult ParsedPacket :=
  match varint 32 input with
  | .ok rest 0 =>
      match var_str_with_max_length 16 rest with
      | .ok r1 username => .ok r1 (.loginStart username)
      | .incomplete => .incomplete
      | .failed => .failed
  | .ok rest 1 =>
      match var_bytes rest with
      | .ok r1 ss =>
          match var_bytes r1 with
          | .ok r2 vt => .ok r2 (.encryptionResponse ss vt)
          | .incomplete => .incomplete
          | .failed => .failed
      | .incomplete => .incomplete
      | .failed => .failed
  | .ok rest 2 =>
      match be_u32 rest with
      | .ok r1 mid =>
          match maybe_var_bytes r1 with
          | .ok r2 data => .ok r2 (.loginPluginResponse mid data)
          | .incomplete => .incomplete
          | .failed => .failed
      | .incomplete => .incomplete
      | .failed => .failed
  | .ok _ _ => .failed
  | .incomplete => .incomplete
  | .failed => .failed

/-- Outcome of one `Connection::read_packet` call.  The three panic
constructors record which line dies: the `assert!(rem.is_empty())` of
src/net.rs line 104, the `ConnectionState::Play => todo!()` arm of line
101, and `packet.handle(self).await.unwrap()` of line 108 unwrapping a
handler error (or a handler's own `unwrap`/`todo!()`). -/
inductive Outcome where
  | ok
  | needMoreData
  | parseFailed
  | assertRemPanicked
  | todoPanicked
  | handlerPanicked
  | fuelOut
deriving DecidableEq, Repr

/-- Result of processing one socket read. -/
structure StepRes where
  events : List Event
  conn : Connection
  outcome : Outcome
deriving Repr

/-- The `match self.state` dispatch of `Connection::read_packet`
(src/net.rs lines 97-102) minus the `Play` arm, whose `todo!()` is
handled by the caller before this match is consulted. -/
def dispatchBody (st : ConnectionState) (data : List Nat) : PResult ParsedPacket :=
  match st with
  | .handshake => handshake_read_packet data
  | .status => status_read_packet data
  | .login => login_read_packet data
  | .play => .failed

/-- The `Packet::handle` implementations, per parsed packet:
`Handshake` (src/net/handshake.rs) sets the state; `Status` and `Ping`
(src/net/status.rs) send the status JSON and the pong; `LoginStart`
(src/net/login.rs lines 39-71) unconditionally inserts an
`AuthSession` and then branches on online mode; `EncryptionResponse`
(lines 84-133) unwraps the session, RSA-decrypts both blobs, checks the
verify-token prefix, asks the session service, sets state to Play and
the cipher, sends LoginSuccess and the kick; `LoginPluginResponse`'s
handler is `todo!()`.  The boolean is false when the handler panicked
(directly, or through `read_packet`'s `.unwrap()` of its error). -/
def handlePacket (env : Env) (p : ParsedPacket) (conn : Connection) :
    List Event × Connection × Bool :=
  match p with
  | .handshake _ _ _ next =>
      ([.handshakeDone next], { conn with state := next }, true)
  | .statusRequest => ([.statusSent], conn, true)
  | .ping payload => ([.pongSent payload], conn, true)
  | .loginStart username =>
      let conn1 := { conn with
        authSession := some ⟨username, env.freshToken⟩ }
      if conn.isOnline then
        ([.encryptionRequested env.freshToken], conn1, true)
      else
        ([.loginSucceeded username, .kickSent],
          { conn1 with state := .play }, true)
  | .encryptionResponse ssEnc vtEnc =>
      match conn.authSession with
      | none => ([], conn, false)
      | some session =>
          match env.rsaDecrypt ssEnc, env.rsaDecrypt vtEnc with
          | some ss, some vt =>
              if session.verifyToken.isPrefixOf vt then
                match env.authReply with
                | some (_, name) =>
                    ([.loginSucceeded name, .kickSent],
                      { conn with state := .play, cipher := some ss }, true)
                | none => ([], conn, false)
              else ([], conn, false)
          | _, _ => ([], conn, false)
  | .loginPluginResponse _ _ => ([], conn, false)

/-- The frame loop of `Connection::read_packet` (src/net.rs lines
91-114): split a frame with `length_data(varint::<u32>)`, dispatch the
body on the connection state (`Play` is `todo!()`), assert the body was
fully consumed, handle, and repeat until the read buffer is empty.
Each productive iteration consumes at least one byte, so the caller's
fuel of `input.length + 1` never runs out; the `fuelOut` outcome only
makes the recursion structural. -/
def readPacketLoop (env : Env) : Nat → Connection → List Nat → StepRes
  | 0, conn, _ => ⟨[], conn, .fuelOut⟩
  | fuel + 1, conn, input =>
    match length_data input with
    | .incomplete => ⟨[], conn, .needMoreData⟩
    | .failed => ⟨[], conn, .parseFailed⟩
    | .ok rest data =>
      if conn.state = .play then ⟨[], conn, .todoPanicked⟩
      else
        match dispatchBody conn.state data with
        | .incomplete => ⟨[], conn, .needMoreData⟩
        | .failed => ⟨[], conn, .parseFailed⟩
        | .ok rem p =>
          if rem ≠ [] then ⟨[], conn, .assertRemPanicked⟩
          else
            let h := handlePacket env p conn
            if h.2.2 = false then ⟨h.1, h.2.1, .handlerPanicked⟩
            else if rest = [] then ⟨h.1, h.2.1, .ok⟩
            else
              let r := readPacketLoop env fuel h.2.1 rest
              ⟨h.1 ++ r.events, r.conn, r.outcome⟩

/-- `Connection::read_packet` applied to the bytes of one socket
read. -/
def read_packet (env : Env) (conn : Connection) (input : List Nat) : StepRes :=
  readPacketLoop env (input.length + 1) conn input

/-- How a run of `connection_loop` ends, from the matches in
src/net.rs lines 66-88. -/
inductive LoopEnd where
  | cleanClose
  | bailedParse
  | panicked
  | awaitingMore
deriving DecidableEq, Repr

/-- `Connection::connection_loop` (src/net.rs lines 66-88) over an
explicit list of socket reads: a zero-length read returns cleanly; a
parse `Error`/`Failure` bails; `Incomplete` is logged and IGNORED — the
buffer is overwritten by the next read, nothing is retained — and the
loop continues with the next read. -/
def connection_loop (env : Env) :
    Connection → List (List Nat) → List Event × Connection × LoopEnd
  | conn, [] => ([], conn, .awaitingMore)
  | conn, chunk :: reads =>
    if chunk = [] then ([], conn, .cleanClose)
    else
      let r := read_packet env conn chunk
      match r.outcome with
      | .ok =>
          let l := connection_loop env r.conn reads
          (r.events ++ l.1, l.2)
      | .needMoreData =>
          let l := connection_loop env r.conn reads
          (r.events ++ l.1, l.2)
      | .parseFailed => (r.events, r.conn, .bailedParse)
      | _ => (r.events, r.conn, .panicked)

/-! ### Mojang-style server-id hash, from src/net/auth.rs lines 99-122

The SHA-1 computation itself lives in the external `sha1` crate; it is
modelled here from FIPS 180-4 (the crate implements the standard
function), and `minecraft_style_crappy_hash` is embedded from the
source.  Byte addition in the negation loop follows release-mode
wrapping semantics (`*i += 1` with `*i = 0xff` wraps to 0 while the
carry stays set). -/

/-- Left rotation of a 32-bit word. -/
def rotl32 (n x : Nat) : Nat :=
  ((x <<< n) ||| (x >>> (32 - n))) % 2 ^ 32

/-- Group a byte list into big-endian 32-bit words. -/
def bytesToWords : List Nat → List Nat
  | a :: b :: c :: d :: rest =>
      (((a * 0x100 + b) * 0x100 + c) * 0x100 + d) :: bytesToWords rest
  | _ => []

/-- Emit a 32-bit word as four big-endian bytes. -/
def wordToBytes (w : Nat) : List Nat :=
  [w / 2 ^ 24 % 0x100, w / 2 ^ 16 % 0x100, w / 2 ^ 8 % 0x100, w % 0x100]

/-- SHA-1 padding: append `0x80`, zero bytes to 56 mod 64, then the
bit length as a 64-bit big-endian integer. -/
def sha1Pad (msg : List Nat) : List Nat :=
  let len := msg.length
  let zeros := (56 + 64 - (len + 1) % 64) % 64
  let bitLen := len * 8
  msg ++ [0x80] ++ List.replicate zeros 0 ++
    [bitLen / 2 ^ 56 % 0x100, bitLen / 2 ^ 48 % 0x100, bitLen / 2 ^ 40 % 0x100,
     bitLen / 2 ^ 32 % 0x100, bitLen / 2 ^ 24 % 0x100, bitLen / 2 ^ 16 % 0x100,
     bitLen / 2 ^ 8 % 0x100, bitLen % 0x100]

/-- Message-schedule extension: given the words accumulated so far in
reverse order, prepend the next `n` scheduled words. -/
def sha1ExtendGo : Nat → List Nat → List Nat
  | 0, acc => acc
  | n + 1, acc =>
      let w := rotl32 1
        (acc.getD 2 0 ^^^ acc.getD 7 0 ^^^ acc.getD 13 0 ^^^ acc.getD 15 0)
      sha1ExtendGo n (w :: acc)

/-- The 80-word message schedule of one 16-word block. -/
def sha1Schedule (block : List Nat) : List Nat :=
  (sha1ExtendGo 64 block.reverse).reverse

/-- The round function and constant for round `t`. -/
def sha1FK (t b c d : Nat) : Nat × Nat :=
  if t < 20 then ((b &&& c) ||| ((b ^^^ 0xffffffff) &&& d), 0x5a827999)
  else if t < 40 then (b ^^^ c ^^^ d, 0x6ed9eba1)
  else if t < 60 then ((b &&& c) ||| (b &&& d) ||| (c &&& d), 0x8f1bbcdc)
  else (b ^^^ c ^^^ d, 0xca62c1d6)

/-- One SHA-1 compression over a 64-byte block, state as five words. -/
def sha1Compress (h : List Nat) (block : List Nat) : List Nat :=
  let ws := sha1Schedule (bytesToWords block)
  let step := fun (st : Nat × Nat × Nat × Nat × Nat) (tw : Nat × Nat) =>
    let (a, b, c, d, e) := st
    let (f, k) := sha1FK tw.1 b c d
    let temp := (rotl32 5 a + f + e + k + tw.2) % 2 ^ 32
    (temp, a, rotl32 30 b, c, d)
  let init := (h.getD 0 0, h.getD 1 0, h.getD 2 0, h.getD 3 0, h.getD 4 0)
  let (a, b, c, d, e) := ((List.range 80).zip ws).foldl step init
  [(h.getD 0 0 + a) % 2 ^ 32, (h.getD 1 0 + b) % 2 ^ 32,
   (h.getD 2 0 + c) % 2 ^ 32, (h.getD 3 0 + d) % 2 ^ 32,
   (h.getD 4 0 + e) % 2 ^ 32]

/-- Split a padded message into 64-byte blocks (fuel-driven; the fuel
passed is always sufficient). -/
def splitBlocks : Nat → List Nat → List (List Nat)
  | 0, _ => []
  | _, [] => []
  | n + 1, bytes => bytes.take 64 :: splitBlocks n (bytes.drop 64)

/-- SHA-1 of a byte list, as the 20 digest bytes. -/
def sha1 (msg : List Nat) : List Nat :=
  let padded := sha1Pad msg
  let blocks := splitBlocks (padded.length / 64 + 1) padded
  let final := blocks.foldl sha1Compress
    [0x67452301, 0xefcdab89, 0x98badcfe, 0x10325476, 0xc3d2e1f0]
  final.foldr (fun w acc => wordToBytes w ++ acc) []

/-- Lower-case hex digit. -/
def hexDigit (n : Nat) : Char :=
  if n < 10 then Char.ofNat (48 + n) else Char.ofNat (87 + n)

/-- `hex::encode` of a byte list, as a character list. -/
def hexChars (bs : List Nat) : List Char :=
  bs.foldr (fun b acc => hexDigit (b / 16 % 16) :: hexDigit (b % 16) :: acc) []

/-- `.trim_start_matches` with the character `0`. -/
def trimZeros (s : List Char) : List Char :=
  s.dropWhile (fun c => c == '0')

/-- The in-place two's-complement negation loop of
`minecraft_style_crappy_hash`, over the byte list in REVERSED order
(the source iterates `input.iter_mut().rev()`): invert each byte, and
while the carry is set record whether the inverted byte was `0xff`
before adding one (wrapping). -/
def negateBytes : List Nat → Bool → List Nat
  | [], _ => []
  | b :: rest, carry =>
      let nb := 0xff - b % 0x100
      if carry then ((nb + 1) % 0x100) :: negateBytes rest (nb == 0xff)
      else nb :: negateBytes rest false

/-- `minecraft_style_crappy_hash` (src/net/auth.rs lines 101-122): if
the top bit of the first byte is set, negate the byte array in place
two's-complement-wise and prepend a minus sign; hex-encode with leading
zeros stripped. -/
def minecraft_style_crappy_hash (input : List Nat) : String :=
  if input.headD 0 &&& 0x80 == 0x80 then
    "-" ++ String.mk (trimZeros (hexChars ((negateBytes input.reverse true).reverse)))
  else
    String.mk (trimZeros (hexChars input))

/-! ### Concrete fixtures used by the closed theorems below -/

/-- A fixed oracle environment: RSA decryption always fails, the fresh
verify token is `[1..8]`, the session service is unreachable.  The
closed theorems below only exercise paths that never consult the failing
oracles. -/
def testEnv : Env := ⟨fun _ => none, [1, 2, 3, 4, 5, 6, 7, 8], none⟩

/-- A connection that has completed a Status handshake. -/
def statusConn : Connection := ⟨.status, true, none, none⟩

/-- An offline-mode connection that has completed a Login handshake. -/
def offlineLoginConn : Connection := ⟨.login, false, none, none⟩

/-- A connection in the Play state whose cipher has been set. -/
def playConn : Connection := ⟨.play, true, none, some [0]⟩

/-- A Login-phase connection holding an auth session. -/
def sessionConn : Connection := ⟨.login, true, some ⟨[], []⟩, none⟩

/-- The inbound-side observables of one `read_packet` call: the handled
packets and the way the call ended.  (The final connection record is
excluded only because `EncryptionResponse` stores the cipher there;
everything the parsing pipeline produces is in here.) -/
def inboundObs (r : StepRes) : List Event × Outcome := (r.events, r.outcome)

/-! ### Theorems -/

/-- `Position::y` can never be anything but zero: the source's left
shift pushes every bit of the word above the `0xfff` mask. -/
theorem Position_y_eq_zero (v : Nat) : Position.y v = 0 := by
  have key : ((v <<< 26) % 2 ^ 64) &&& 0xfff = 0 := by
    rw [Nat.shiftLeft_eq]
    have h2 : (v * 2 ^ 26) % 2 ^ 64 &&& 0xfff = (v * 2 ^ 26) % 2 ^ 64 % 2 ^ 12 :=
      Nat.and_pow_two_sub_one_eq_mod _ 12
    rw [h2, Nat.mod_mod_of_dvd _ (by norm_num : (2 ^ 12 : Nat) ∣ 2 ^ 64),
      show v * 2 ^ 26 = v * 2 ^ 14 * 2 ^ 12 by ring]
    exact Nat.mul_mod_left _ _
  show (if (1 <<< 11 : Int) ≤ ((((v <<< 26) % 2 ^ 64) &&& 0xfff : Nat) : Int)
      then ((((v <<< 26) % 2 ^ 64) &&& 0xfff : Nat) : Int) - (1 <<< 12)
      else ((((v <<< 26) % 2 ^ 64) &&& 0xfff : Nat) : Int)) = 0
  rw [key]
  decide

/-- `Position::z` can never be anything but zero, for the same
reason. -/
theorem Position_z_eq_zero (v : Nat) : Position.z v = 0 := by
  have key : ((v <<< 38) % 2 ^ 64) &&& 0x3ffffff = 0 := by
    rw [Nat.shiftLeft_eq]
    have h2 : (v * 2 ^ 38) % 2 ^ 64 &&& 0x3ffffff = (v * 2 ^ 38) % 2 ^ 64 % 2 ^ 26 :=
      Nat.and_pow_two_sub_one_eq_mod _ 26
    rw [h2, Nat.mod_mod_of_dvd _ (by norm_num : (2 ^ 26 : Nat) ∣ 2 ^ 64),
      show v * 2 ^ 38 = v * 2 ^ 12 * 2 ^ 26 by ring]
    exact Nat.mul_mod_left _ _
  show (if (1 <<< 25 : Int) ≤ ((((v <<< 38) % 2 ^ 64) &&& 0x3ffffff : Nat) : Int)
      then ((((v <<< 38) % 2 ^ 64) &&& 0x3ffffff : Nat) : Int) - (1 <<< 26)
      else ((((v <<< 38) % 2 ^ 64) &&& 0x3ffffff : Nat) : Int)) = 0
  rw [key]
  decide

/-- C2: refuted on the signed side — `serialize_and_append::<i32>` on
`-1` (pattern `0xffffffff`) runs all five loop iterations with the
arithmetic shift keeping the value at `-1`, and falls through to the
`panic!("overflow when converting varint to bytes")` line (`none`)
instead of terminating with the five bytes `ff ff ff ff 0f` the
protocol (and the claim) prescribe.  The second conjunct shows that the
same loop with a LOGICAL shift — what the encoding needs — produces
exactly those five bytes from the same two's-complement pattern. -/
theorem serialize_negative_i32_panics :
    serialize_and_append_i 32 (toPattern 32 (-1)) = none ∧
    serialize_and_append_u 32 (toPattern 32 (-1))
      = some [0xff, 0xff, 0xff, 0xff, 0x0f] := by decide

/-- C3: the accessors do not invert the documented `x:26 | z:26 | y:12`
layout.  Packing `(x, y, z) = (1, 1, 1)` per the spec's layout and
reading it back through the source accessors yields `(4097, 0, 0)`:
`x()` reads the LOW 26 bits (which hold z's low bits and y) instead of
bits 63..38, and `y()`/`z()` shift LEFT (`<<`) where the layout needs a
right shift, so their masks always see zero. -/
theorem position_roundtrip_fails :
    Position.x (Position.packSpec 1 1 1) = 4097 ∧
    Position.y (Position.packSpec 1 1 1) = 0 ∧
    Position.z (Position.packSpec 1 1 1) = 0 ∧
    ¬(Position.x (Position.packSpec 1 1 1) = 1 ∧
      Position.y (Position.packSpec 1 1 1) = 1 ∧
      Position.z (Position.packSpec 1 1 1) = 1) := by decide

/-- C4: a Status `Request` frame `[0x01, 0x00]` delivered whole is
parsed and handled, but the same frame split across two reads (the
boundary after the length byte) is lost: the first read's bytes are
discarded when `read_packet` reports `Incomplete` (the loop's
`// ignore` branch), and no packet is ever handled. -/
theorem split_frame_is_discarded :
    (connection_loop testEnv statusConn [[1], [0]]).1 = [] ∧
    (connection_loop testEnv statusConn [[1, 0]]).1 = [Event.statusSent] :=
  ⟨rfl, rfl⟩

/-- C5: any complete frame received in the Play state — here a
well-formed `KeepAlive` (id `0x0f`, a 64-bit payload) — drives
`Connection::read_packet` into the `ConnectionState::Play => todo!()`
dispatch arm, which panics; `play::read_packet` with its no-op handlers
is never reached. -/
theorem play_frame_panics :
    (read_packet testEnv playConn [9, 0x0f, 0, 0, 0, 0, 0, 0, 0, 42]).outcome
      = Outcome.todoPanicked := rfl

/-- C6 counterexample: a `u16` varint whose first `MAX_SIZE = 3` bytes
all carry the continuation bit does NOT fail with `VarintOverflow`: the
parser consumes one further byte (`be_u8` accepts it even with its top
bit set) and returns a value. -/
theorem varint_overflow_not_an_error :
    varint 16 [0x80, 0x80, 0x80, 0x80] = .ok [] 0 ∧
    varint 16 [0x80, 0x80, 0x80, 0x80] ≠ .failed := by decide

/-- C7 counterexample: a length-prefixed string declaring 17 bytes
against a per-call maximum of 16 (the `LoginStart` username bound) is
not rejected: the declared length is clamped by `.min(max_length)`, the
parser reads 16 bytes and succeeds, leaving the 17th unread. -/
theorem oversized_string_parses :
    var_str_with_max_length 16 (17 :: List.replicate 17 97)
      = .ok [97] (List.replicate 16 97) ∧
    var_str_with_max_length 16 (17 :: List.replicate 17 97) ≠ .failed := by
  decide

/-- C8 counterexample: handling `LoginStart("Alex")` on an
OFFLINE-mode connection still creates the `auth_session` (the source
inserts it before checking `is_online`), and the session survives the
transition into Play — both directions of the claimed invariant fail at
this input. -/
theorem offline_login_keeps_auth_session :
    (read_packet testEnv offlineLoginConn [6, 0, 4, 65, 108, 101, 120]).conn.state
      = ConnectionState.play ∧
    (read_packet testEnv offlineLoginConn [6, 0, 4, 65, 108, 101, 120]).conn.authSession
      = some ⟨[65, 108, 101, 120], [1, 2, 3, 4, 5, 6, 7, 8]⟩ ∧
    offlineLoginConn.isOnline = false :=
  ⟨rfl, rfl, rfl⟩

/-- C9: the Mojang-style hash of the three wiki.vg test vectors.
`sha1` here is the FIPS 180-4 function (the external crate the source
calls), `minecraft_style_crappy_hash` is the source's formatter; the
inputs are the UTF-8 bytes of "Notch", "jeb_" and "simon". -/
theorem mojang_hash_vectors :
    minecraft_style_crappy_hash (sha1 [78, 111, 116, 99, 104])
      = "4ed1f46bbe04bc756bcb17c0c7ce3e4632f06a48" ∧
    minecraft_style_crappy_hash (sha1 [106, 101, 98, 95])
      = "-7c9d5b0044c130109a5d7b5fb5c317c02b4e28c1" ∧
    minecraft_style_crappy_hash (sha1 [115, 105, 109, 111, 110])
      = "88e16a1019277b15d58faf0541e11910eb756f6" :=
  ⟨rfl, rfl, rfl⟩

/-- C10: a well-formed Login-phase frame whose body is not fully
consumed by the dispatched parser — a `LoginStart` declaring a
17-byte username, of which `var_str_with_max_length(16)` reads only
16 bytes — does not produce a parse error: `read_packet` reaches
`assert!(rem.is_empty())` with one byte left over and panics. -/
theorem read_packet_asserts_on_leftover :
    (read_packet testEnv offlineLoginConn ([19, 0, 17] ++ List.replicate 17 97)).outcome
      = Outcome.assertRemPanicked := rfl

/-- If every byte of `l.take m` satisfies `p` and `l` is at least `m`
long, then `l.takeWhile p` keeps at least `m` bytes. -/
theorem takeWhile_length_ge (p : Nat → Bool) :
    ∀ (l : List Nat) (m : Nat), (l.take m).all p = true → m ≤ l.length →
      m ≤ (l.takeWhile p).length := by
  intro l
  induction l with
  | nil => intro m _ hm; simpa using hm
  | cons a t ih =>
    intro m hall hm
    cases m with
    | zero => exact Nat.zero_le _
    | succ n =>
      simp only [List.take_succ_cons, List.all_cons, Bool.and_eq_true] at hall
      simp only [List.takeWhile_cons, hall.1, if_true, List.length_cons]
      exact Nat.succ_le_succ (ih n hall.2 (by simpa using hm))

/-- C6 as amended: after `MAX_SIZE` continuation bytes the parser does
not fail — `take_while_m_n` stops at its cap and `be_u8` unconditionally
consumes the next byte, top bit or not, so decoding succeeds, consuming
`MAX_SIZE + 1` bytes and folding all of them into the value.  (The
parser has no overflow error path at all; its only non-success result
on such input is `Incomplete` when the input ends.) -/
theorem varint_consumes_terminator_after_max (w : Nat) (input : List Nat)
    (hall : ((input.take (maxSize w)).all fun b => b &&& 0x80 == 0x80) = true)
    (hlen : maxSize w < input.length) :
    varint w input = .ok (input.drop (maxSize w + 1))
      (foldVarint w (input.take (maxSize w + 1))) := by
  have h1 : maxSize w ≤ (input.takeWhile fun b => b &&& 0x80 == 0x80).length :=
    takeWhile_length_ge _ input (maxSize w) hall (Nat.le_of_lt hlen)
  simp only [varint, Nat.min_eq_right h1]
  rw [if_neg (by omega)]

/-- Witness for the amended C6 at the concrete overflowing input. -/
theorem varint_consumes_terminator_after_max_witness :
    varint 16 [0x80, 0x80, 0x80, 0x80]
      = .ok ([0x80, 0x80, 0x80, 0x80].drop (maxSize 16 + 1))
        (foldVarint 16 ([0x80, 0x80, 0x80, 0x80].take (maxSize 16 + 1))) :=
  varint_consumes_terminator_after_max 16 _ (by decide) (by decide)

/-- C7 as amended: a declared length above the per-call maximum is not
an error — the length is clamped to the maximum, the parser reads
exactly that many bytes (succeeding whenever they are available and
valid UTF-8) and leaves the excess unconsumed. -/
theorem var_str_clamps_oversized_length (maxLength : Nat) (input rest : List Nat)
    (len : Nat) (hv : varint 32 input = .ok rest len) (hgt : maxLength < len)
    (hle : maxLength ≤ rest.length)
    (hutf : utf8Valid (rest.take maxLength) = true) :
    var_str_with_max_length maxLength input
      = .ok (rest.drop maxLength) (rest.take maxLength) := by
  simp only [var_str_with_max_length, hv, Nat.min_eq_right (Nat.le_of_lt hgt)]
  rw [if_neg (by omega), if_pos hutf]

/-- Witness for the amended C7 at the concrete oversized input. -/
theorem var_str_clamps_oversized_length_witness :
    var_str_with_max_length 16 (17 :: List.replicate 17 97)
      = .ok ((List.replicate 17 97).drop 16) ((List.replicate 17 97).take 16) :=
  var_str_clamps_oversized_length 16 _ (List.replicate 17 97) 17
    (by decide) (by decide) (by decide) (by decide)

/-- Every handler keeps `auth_session` populated once it is: no handler
ever writes `none` into the field. -/
theorem handlePacket_preserves_authSession (env : Env) (p : ParsedPacket)
    (conn : Connection) (h : conn.authSession.isSome = true) :
    ((handlePacket env p conn).2.1.authSession).isSome = true := by
  cases p with
  | handshake a b c d => simpa [handlePacket] using h
  | statusRequest => simpa [handlePacket] using h
  | ping n => simpa [handlePacket] using h
  | loginStart u =>
      by_cases ho : conn.isOnline <;> simp [handlePacket, ho]
  | encryptionResponse ss vt =>
      simp only [handlePacket]
      rcases hs : conn.authSession with _ | s
      · rw [hs] at h; simp at h
      · rcases env.rsaDecrypt ss with _ | ss' <;> rcases env.rsaDecrypt vt with _ | vt' <;>
          simp only []
        · simp [hs]
        · simp [hs]
        · simp [hs]
        · split
          · rcases env.authReply with _ | ⟨u, name⟩
            · simp [hs]
            · simp [hs]
          · simp [hs]
  | loginPluginResponse a b => simpa [handlePacket] using h

/-- The frame loop preserves a populated `auth_session` through any
number of frames. -/
theorem readPacketLoop_preserves_authSession (env : Env) :
    ∀ (fuel : Nat) (conn : Connection) (input : List Nat),
    conn.authSession.isSome = true →
    ((readPacketLoop env fuel conn input).conn.authSession).isSome = true := by
  intro fuel
  induction fuel with
  | zero => intro conn input h; simpa [readPacketLoop] using h
  | succ n ih =>
    intro conn input h
    simp only [readPacketLoop]
    cases hld : length_data input with
    | incomplete => simpa using h
    | failed => simpa using h
    | ok rest data =>
      dsimp only
      by_cases hp : conn.state = .play
      · simpa [hp] using h
      · rw [if_neg hp]
        cases hparsed : dispatchBody conn.state data with
        | incomplete => simpa using h
        | failed => simpa using h
        | ok rem p =>
          dsimp only
          by_cases hrem : rem = []
          · have hh := handlePacket_preserves_authSession env p conn h
            by_cases hflag : (handlePacket env p conn).2.2 = false
            · simpa [hrem, hflag] using hh
            · by_cases hrest : rest = []
              · simpa [hrem, hflag, hrest] using hh
              · simpa [hrem, hflag, hrest] using ih _ rest hh
          · simpa [hrem] using h

/-- C8 as amended: `auth_session` is created by the `LoginStart`
handler in BOTH online and offline mode (the insert precedes the
`is_online` check), and once populated it is never cleared — in
particular it is still populated after the connection enters Play. -/
theorem auth_session_set_and_never_cleared :
    (∀ (env : Env) (conn : Connection) (u : List Nat),
       (((handlePacket env (.loginStart u) conn).2.1).authSession).isSome = true) ∧
    (∀ (env : Env) (fuel : Nat) (conn : Connection) (input : List Nat),
       conn.authSession.isSome = true →
       ((readPacketLoop env fuel conn input).conn.authSession).isSome = true) := by
  constructor
  · intro env conn u
    by_cases ho : conn.isOnline <;> simp [handlePacket, ho]
  · intro env fuel conn input h
    exact readPacketLoop_preserves_authSession env fuel conn input h

/-- Witness for the amended C8: a Login connection holding a session
still holds one after processing a read. -/
theorem auth_session_set_and_never_cleared_witness :
    ((readPacketLoop testEnv 1 sessionConn [0]).conn.authSession).isSome = true :=
  auth_session_set_and_never_cleared.2 testEnv 1 sessionConn [0] rfl

/-- Handlers never read the cipher: two connections differing only in
their `cipher` field produce the same events and success flag, and
their results again differ at most in the cipher field. -/
theorem handlePacket_cipher_irrel (env : Env) (p : ParsedPacket)
    (a b : Connection) (h1 : a.state = b.state) (h2 : a.isOnline = b.isOnline)
    (h3 : a.authSession = b.authSession) :
    (handlePacket env p a).1 = (handlePacket env p b).1 ∧
    (handlePacket env p a).2.2 = (handlePacket env p b).2.2 ∧
    (handlePacket env p a).2.1.state = (handlePacket env p b).2.1.state ∧
    (handlePacket env p a).2.1.isOnline = (handlePacket env p b).2.1.isOnline ∧
    (handlePacket env p a).2.1.authSession = (handlePacket env p b).2.1.authSession := by
  obtain ⟨sa, oa, aa, ca⟩ := a
  obtain ⟨sb, ob, ab, cb⟩ := b
  simp only [] at h1 h2 h3
  subst h1; subst h2; subst h3
  cases p with
  | handshake q r t next => simp [handlePacket]
  | statusRequest => simp [handlePacket]
  | ping n => simp [handlePacket]
  | loginStart u => by_cases ho : oa <;> simp [handlePacket, ho]
  | encryptionResponse ss vt =>
      simp only [handlePacket]
      rcases aa with _ | s
      · simp
      · rcases env.rsaDecrypt ss with _ | ss2 <;> rcases env.rsaDecrypt vt with _ | vt2 <;>
          simp only []
        · simp
        · simp
        · simp
        · split
          · rcases env.authReply with _ | ⟨u, name⟩ <;> simp
          · simp
  | loginPluginResponse q r => simp [handlePacket]

/-- The frame loop never reads the cipher either: two connections
differing only in `cipher` yield the same events and outcome, and their
final states still differ at most in `cipher`. -/
theorem readPacketLoop_cipher_irrel (env : Env) :
    ∀ (fuel : Nat) (input : List Nat) (a b : Connection),
    a.state = b.state → a.isOnline = b.isOnline → a.authSession = b.authSession →
    (readPacketLoop env fuel a input).events = (readPacketLoop env fuel b input).events ∧
    (readPacketLoop env fuel a input).outcome = (readPacketLoop env fuel b input).outcome ∧
    (readPacketLoop env fuel a input).conn.state = (readPacketLoop env fuel b input).conn.state ∧
    (readPacketLoop env fuel a input).conn.isOnline = (readPacketLoop env fuel b input).conn.isOnline ∧
    (readPacketLoop env fuel a input).conn.authSession
      = (readPacketLoop env fuel b input).conn.authSession := by
  intro fuel
  induction fuel with
  | zero => intro input a b h1 h2 h3; simp [readPacketLoop, h1, h2, h3]
  | succ n ih =>
    intro input a b h1 h2 h3
    simp only [readPacketLoop]
    cases hld : length_data input with
    | incomplete => simp [h1, h2, h3]
    | failed => simp [h1, h2, h3]
    | ok rest data =>
      dsimp only
      rw [h1]
      by_cases hp : b.state = .play
      · simp [hp, h1, h2, h3]
      · rw [if_neg hp, if_neg hp]
        cases hparsed : dispatchBody b.state data with
        | incomplete => simp [h1, h2, h3]
        | failed => simp [h1, h2, h3]
        | ok rem p =>
          dsimp only
          by_cases hrem : rem = []
          · obtain ⟨e1, e2, e3, e4, e5⟩ := handlePacket_cipher_irrel env p a b h1 h2 h3
            rw [e2]
            by_cases hflag : (handlePacket env p b).2.2 = false
            · simp [hrem, hflag, e1, e2, e3, e4, e5]
            · by_cases hrest : rest = []
              · simp [hrem, hflag, hrest, e1, e2, e3, e4, e5]
              · obtain ⟨f1, f2, f3, f4, f5⟩ :=
                  ih rest (handlePacket env p a).2.1 (handlePacket env p b).2.1 e3 e4 e5
                simp [hrem, hflag, hrest, e1, f1, f2, f3, f4, f5]
          · simp [hrem, h1, h2, h3]

/-- C1: refuted — `Connection::read_packet` never consults the cipher:
the events it produces and the way it ends are identical whatever the
cipher field holds, so no inbound byte is ever passed through an
AES-128-CFB8 decryption stream before frame splitting and parsing.
(The struct's single `cipher` is read only by `ResponseBuilder::send`,
on the outbound side; there is no decrypt cipher at all.) -/
theorem read_packet_ignores_cipher (env : Env) (conn : Connection)
    (input : List Nat) (c : Option (List Nat)) :
    inboundObs (read_packet env { conn with cipher := c } input)
      = inboundObs (read_packet env { conn with cipher := none } input) := by
  obtain ⟨h1, h2, _⟩ := readPacketLoop_cipher_irrel env (input.length + 1) input
    { conn with cipher := c } { conn with cipher := none } rfl rfl rfl
  simp [inboundObs, read_packet, h1, h2]

end Hieronymus
